import Mathlib

/-!
Shallow embedding of the Synopsys DC synthesis plugin
(`src/hammer/synthesis/dc/__init__.py`, class `DC`), covering the
output validator (`fill_outputs`), the config exporter
(`export_config_outputs`), the pipeline steps (`init_environment`,
`elaborate_design`, `apply_constraints`, `insert_dft`,
`optimize_design`, `generate_reports`, `generate_dft_reports`,
`write_outputs`, `write_regs`), the engine invoker
(`run_design_compiler`, `env_vars`) and the completion-flag attribute
store (`ran_write_regs`, `ran_write_outputs`).

Filesystems are modelled as the list of existing file paths; Python
`os.path` operations are embedded as pure string functions; Python
exceptions are modelled as a `raised` step outcome carrying the error,
with the partially mutated state carried alongside (Python mutations
to `self` survive a raise).
-/

namespace DC

/-- Python `os.path.basename` for POSIX paths: everything after the last slash. -/
def ospathBasename (p : String) : String :=
  ⟨(p.data.reverse.takeWhile (fun c => c ≠ '/')).reverse⟩

/-- Python `os.path.dirname` for POSIX paths: everything up to the last slash,
with trailing slashes stripped unless the result is all slashes. -/
def ospathDirname (p : String) : String :=
  let head : List Char := (p.data.reverse.dropWhile (fun c => c ≠ '/')).reverse
  if head.isEmpty then ""
  else if head.all (fun c => c = '/') then ⟨head⟩
  else ⟨(head.reverse.dropWhile (fun c => c = '/')).reverse⟩

/-- Python `os.path.join` for POSIX paths, two arguments: if `b` starts
with a slash it replaces `a`; otherwise it is attached with a separating
slash unless `a` is empty or already ends with one. -/
def ospathJoin (a b : String) : String :=
  if b.data.head? = some '/' then b
  else if a = "" || a.data.getLast? = some '/' then a ++ b
  else a ++ "/" ++ b

/-- A filesystem is the list of paths that exist; `os.path.isfile` /
`os.path.exists` are membership tests. -/
abbrev FS := List String

def isfile (fs : FS) (p : String) : Bool := fs.contains p

/-- Messages emitted through `self.logger`. -/
inductive Log where
  | info (msg : String)
  | warning (msg : String)
  | error (msg : String)
deriving Repr, DecidableEq

/-- Python exceptions raised by the embedded code. -/
inductive PyErr where
  | valueError (msg : String)
  | indexError
  | engineExecutionError
deriving Repr, DecidableEq

/-- Result of one pipeline step: `success`/`failure` are Python
`return True`/`return False`; `raised e` is an uncaught exception. -/
inductive StepOut where
  | success
  | failure
  | raised (e : PyErr)
deriving Repr, DecidableEq

/-- The per-run mutable state of the `DC` tool object: the string-keyed
attribute store (keys `_ran_write_regs`, `_ran_write_outputs`, `_output`,
each `none` when never set, so the getters' defaults apply), the output
attributes assigned by `fill_outputs`, and the log of emitted messages. -/
structure DCState where
  ran_write_regs_attr : Option Bool := none
  ran_write_outputs_attr : Option Bool := none
  output_attr : Option (List String) := none
  output_seq_cells : Option String := none
  output_all_regs : Option String := none
  output_files : Option (List String) := none
  output_sdc : Option String := none
  sdf_file : Option String := none
  logs : List Log := []
deriving Repr, DecidableEq

/-- Fresh tool state: no attribute has been set, nothing logged. -/
def initState : DCState := {}

/-- Property `ran_write_regs`: `attr_getter("_ran_write_regs", False)`. -/
def ran_write_regs (st : DCState) : Bool := st.ran_write_regs_attr.getD false

/-- Property `ran_write_outputs`: `attr_getter("_ran_write_outputs", False)`. -/
def ran_write_outputs (st : DCState) : Bool := st.ran_write_outputs_attr.getD false

/-- Property `output`: `attr_getter("_output", [])`, the buffered tcl lines. -/
def output (st : DCState) : List String := st.output_attr.getD []

/-- Modelled from the spec: `tcl_append` is hammer-framework code not in
`src/`; per the Script Buffer contract (spec 4.1), `append(line)` adds one
command string to the buffer, preserving order. -/
def append (st : DCState) (cmd : String) : DCState :=
  { st with output_attr := some (output st ++ [cmd]) }

/-- Sequential `self.append` calls. -/
def appendCmds (st : DCState) (cmds : List String) : DCState :=
  cmds.foldl append st

/-- The static configuration a run is resolved against: directories and the
top module name, plus `mapped_sdc_path` (a `SynopsysCommon` property not in
`src/`, used only in the text of the SDC warning message). -/
structure Cfg where
  run_dir : String
  result_dir : String
  top_module : String
  mapped_sdc_path : String
deriving Repr, DecidableEq

/-- Property `all_regs_path`: `os.path.join(run_dir, "find_regs_paths.json")`. -/
def all_regs_path (c : Cfg) : String := ospathJoin c.run_dir "find_regs_paths.json"

/-- Property `all_cells_path`: `os.path.join(run_dir, "find_regs_cells.json")`. -/
def all_cells_path (c : Cfg) : String := ospathJoin c.run_dir "find_regs_cells.json"

/-- Property `post_synth_sdc`: `os.path.join(result_dir, top + ".mapped.sdc")`. -/
def post_synth_sdc (c : Cfg) : String :=
  ospathJoin c.result_dir (c.top_module ++ ".mapped.sdc")

/-- Property `output_sdf_path`: `os.path.join(run_dir, top + ".mapped.sdf")`. -/
def output_sdf_path (c : Cfg) : String :=
  ospathJoin c.run_dir (c.top_module ++ ".mapped.sdf")

/-- The local `mapped_v` of `fill_outputs`:
`os.path.join(result_dir, top + ".mapped.v")`. -/
def mapped_v_path (c : Cfg) : String :=
  ospathJoin c.result_dir (c.top_module ++ ".mapped.v")

/-- Second half of `fill_outputs`, from the `mapped_v` check on
(source lines 35-56): unconditional mapped-Verilog existence check, then
assignment of `output_files` / `output_sdc` / `sdf_file`, then the
`ran_write_outputs`-gated SDC/SDF warnings (or the not-run info message). -/
def fill_after_regs (c : Cfg) (fs : FS) (st : DCState) : DCState × StepOut :=
  let mapped_v := mapped_v_path c
  if ¬ isfile fs mapped_v then
    (st, .raised (.valueError ("Output mapped verilog " ++ mapped_v ++ " not found")))
  else
    let st := { st with output_files := some [mapped_v],
                        output_sdc := some (post_synth_sdc c),
                        sdf_file := some (output_sdf_path c) }
    if ran_write_outputs st then
      if ¬ isfile fs mapped_v then
        (st, .raised (.valueError ("Output mapped verilog " ++ mapped_v ++ " not found")))
      else
        let st := if ¬ isfile fs (post_synth_sdc c) then
            { st with logs := st.logs ++ [.warning ("Output SDC " ++ c.mapped_sdc_path ++ " not found")] }
          else st
        let st := if ¬ isfile fs (output_sdf_path c) then
            { st with logs := st.logs ++ [.warning ("Output SDF " ++ output_sdf_path c ++ " not found")] }
          else st
        (st, .success)
    else
      ({ st with logs := st.logs ++ [.info "Did not run write_outputs"] }, .success)

/-- `DC.fill_outputs` (source lines 20-56). `prp` is the boolean outcome of
`self.process_reg_paths` (a hammer-framework method not in `src/`,
deterministic for a fixed filesystem state; a failing outcome is logged but
not fatal). `raise ValueError` is modelled as the `raised` outcome with the
partially mutated state. -/
def fill_outputs (c : Cfg) (fs : FS) (prp : Bool) (st : DCState) : DCState × StepOut :=
  let st := { st with output_seq_cells := some (all_cells_path c),
                      output_all_regs := some (all_regs_path c) }
  if ran_write_regs st then
    if ¬ isfile fs (all_cells_path c) then
      (st, .raised (.valueError ("Output find_regs_cells.json " ++ all_cells_path c ++ " not found")))
    else if ¬ isfile fs (all_regs_path c) then
      (st, .raised (.valueError ("Output find_regs_paths.json " ++ all_regs_path c ++ " not found")))
    else if ¬ prp then
      fill_after_regs c fs { st with logs := st.logs ++ [.error "Failed to process all register paths"] }
    else
      fill_after_regs c fs st
  else
    fill_after_regs c fs { st with logs := st.logs ++ [.info "Did not run write_regs"] }

/-- `DC.export_config_outputs` (source lines 87-94). `superOut` abstracts
`super().export_config_outputs()` (hammer-framework code not in `src/`),
given access to the tool's `output_files`; the four DC keys are appended
to it in source order. -/
def export_config_outputs (superOut : Option (List String) → List (String × Option String))
    (c : Cfg) (st : DCState) : List (String × Option String) :=
  superOut st.output_files ++
    [("synthesis.outputs.sdc", st.output_sdc),
     ("synthesis.outputs.seq_cells", st.output_seq_cells),
     ("synthesis.outputs.all_regs", st.output_all_regs),
     ("synthesis.outputs.sdf_file", some (output_sdf_path c))]

/-- The process-wide `HammerVLSILogging` presentation flags. -/
structure LogFlags where
  enable_colour : Bool
  enable_tag : Bool
deriving Repr, DecidableEq

/-- The subprocess invocation handed to `run_executable`: argument list and
working directory. -/
structure Invocation where
  args : List String
  cwd : String
deriving Repr, DecidableEq

/-- Modelled from the spec: `run_executable` is hammer-framework code not in
`src/`. Per the spec (4.5, 7) it runs the command synchronously, returns the
captured output lines, and a non-zero exit from the external process is a
fatal `EngineExecutionError` that aborts the run. This type is the outcome
of that call. -/
inductive ExecOutcome where
  | lines (out : List String)
  | nonzeroExit
deriving Repr, DecidableEq

/-- Result of `run_design_compiler`: final global logging flags, the script
file content written to `dc.tcl`, the subprocess invocation issued, and the
step outcome. -/
structure RunResult where
  flags : LogFlags
  script : String
  inv : Invocation
  outcome : StepOut
deriving Repr, DecidableEq

/-- `DC.run_design_compiler` (source lines 322-335). The script file content
is the concatenation of the two sequential `_f.write` calls:
`'\n'.join(self.output)` then `'\nexit'`. The global flags are set to
`False`/`False` on entry and to `True`/`True` after `run_executable`
returns; if `run_executable` aborts with `EngineExecutionError`
(non-zero engine exit), the two restoring assignments are never reached.
`g0` is the pre-invocation value of the global flags (never read). -/
def run_design_compiler (dcBinSetting scriptDir runDir : String)
    (exec : ExecOutcome) (st : DCState) (g0 : LogFlags) : RunResult :=
  let g1 : LogFlags := { g0 with enable_colour := false }
  let g2 : LogFlags := { g1 with enable_tag := false }
  let dc_bin := ospathBasename dcBinSetting
  let dc_tcl := ospathJoin scriptDir "dc.tcl"
  let script := [String.intercalate "\n" (output st), "\nexit"].foldl (· ++ ·) ""
  let args := [dc_bin, "-64bit", "-f", dc_tcl]
  match exec with
  | .lines _ =>
    ({ flags := { g2 with enable_colour := true, enable_tag := true },
       script := script, inv := ⟨args, runDir⟩, outcome := .success })
  | .nonzeroExit =>
    ({ flags := g2, script := script, inv := ⟨args, runDir⟩,
       outcome := .raised .engineExecutionError })

/-- Modelled from the spec: the Script Buffer `render()` contract
(spec 4.1, 8): all lines joined by newline plus the trailing exit
directive, the directive contributing a newline then `exit` as shown by
the spec's concrete scenario. -/
def render (lines : List String) : String :=
  String.intercalate "\n" lines ++ "\nexit"

/-- An environment mapping, `key` to optional value. -/
abbrev Env := String → Option String

/-- `DC.env_vars` (source lines 314-320): `dict(super().env_vars)` with
`env["PATH"]` overwritten by the directory of the configured
`synthesis.dc.dc_bin` joined by `:` with the inherited `os.environ["PATH"]`. -/
def env_vars (dcBinSetting inheritedPATH : String) (superEnv : Env) : Env :=
  fun k => if k = "PATH"
    then some (ospathDirname dcBinSetting ++ ":" ++ inheritedPATH)
    else superEnv k

/-- `DC.init_environment` (source lines 133-165). `maxThreads` is the
`vlsi.core.max_threads` setting, `timingDbs` the `SynopsysCommon`
`timing_dbs` property (not in `src/`), both passed in. The library loop
fails (logging `Cannot find <db>` and returning `False`) at the first
timing database missing from the filesystem. -/
def init_environment (maxThreads : Int) (resultDir top : String)
    (timingDbs : List String) (fs : FS) (st : DCState) : DCState × StepOut :=
  let st := appendCmds st
    ["set_app_var sh_new_variable_message false",
     "set disable_multicore_resource_checks true",
     "set_host_options -max_cores " ++ toString maxThreads,
     "set_app_var alib_library_analysis_path alib",
     "set_app_var search_path \". " ++ resultDir ++ " $search_path\""]
  match timingDbs.find? (fun db => !(isfile fs db)) with
  | some db =>
    ({ st with logs := st.logs ++ [.error ("Cannot find " ++ db)] }, .failure)
  | none =>
    let st := appendCmds st
      ["set_app_var target_library \"" ++ String.intercalate " " timingDbs ++ "\"",
       "set_app_var synthetic_library dw_foundation.sldb",
       "set_app_var link_library \"* $target_library $synthetic_library\"",
       "set_app_var simplified_verification_mode false",
       "set_svf results/" ++ top ++ ".mapped.svf"]
    (st, .success)

/-- `DC.elaborate_design` (source lines 167-195). `verilog` is the combined
list `self.verilog + technology verilog-synth libs` (framework inputs);
each source is existence-checked before any command is appended. -/
def elaborate_design (verilog : List String) (top : String)
    (fs : FS) (st : DCState) : DCState × StepOut :=
  match verilog.find? (fun v => !(isfile fs v)) with
  | some v =>
    ({ st with logs := st.logs ++ [.error ("Cannot find " ++ v)] }, .failure)
  | none =>
    let st := appendCmds st
      ["define_design_lib WORK -path ./WORK",
       "analyze -format sverilog \"" ++ String.intercalate " " verilog ++ "\"",
       "elaborate " ++ top,
       "current_design " ++ top,
       "link"]
    (st, .success)

/-- `DC.apply_constraints` (source lines 197-224). Inputs: the clock names
from `get_clock_ports`, the `sdc_clock_constraints` fragment, and the
`vlsi.inputs.no_ungroup` / `vlsi.inputs.retimed_modules` /
`synthesis.dc.retiming_args` settings. Purely additive. -/
def apply_constraints (clocks : List String) (sdcClockConstraints : String)
    (noUngroup retimedModules retimingArgs : List String)
    (st : DCState) : DCState × StepOut :=
  let st := append st sdcClockConstraints
  let st := appendCmds st
    (noUngroup.map (fun m => "set_ungroup [get_designs " ++ m ++ "] false"))
  let st := appendCmds st
    (retimedModules.map (fun m => String.intercalate " "
      (["set_optimize_registers", "true", "-design", m, "-clock",
        "\x7b" ++ String.intercalate " " clocks ++ "\x7d"] ++ retimingArgs)))
  let st := append st
    ("\nset ports_clock_root [filter_collection [get_attribute [get_clocks] sources] object_class==port]\n"
     ++ "group_path -name REGOUT -to [all_outputs]\n"
     ++ "group_path -name REGIN -from [remove_from_collection [all_inputs] $\x7bports_clock_root\x7d]\n"
     ++ "group_path -name FEEDTHROUGH -from [remove_from_collection [all_inputs] $\x7bports_clock_root\x7d] -to [all_outputs]\n")
  let st := append st "set_fix_multiple_port_nets -all -buffer_constants"
  (st, .success)

/-- `DC.optimize_design` (source lines 227-233). -/
def optimize_design (compileArgs : List String) (st : DCState) : DCState × StepOut :=
  let st := appendCmds st
    ["compile_ultra " ++ String.intercalate " " compileArgs,
     "change_names -rules verilog -hierarchy",
     "set_svf -off"]
  (st, .success)

/-- `DC.generate_reports` (source lines 235-252): one formatted block. -/
def generate_reports (reportDir top : String) (st : DCState) : DCState × StepOut :=
  let st := append st
    ("\nreport_reference -hierarchy > \\\n    "
     ++ reportDir ++ "/" ++ top ++ ".mapped.report_reference.out\nreport_qor > \\\n    "
     ++ reportDir ++ "/" ++ top ++ ".mapped.qor.rpt\nreport_area -nosplit > \\\n    "
     ++ reportDir ++ "/" ++ top ++ ".mapped.area.rpt\nreport_timing -max_paths 500 -nworst 10 -input_pins -capacitance \\\n    -significant_digits 4 -transition_time -nets -attributes -nosplit > \\\n    "
     ++ reportDir ++ "/" ++ top ++ ".mapped.timing.rpt\n\nreport_power -nosplit > \\\n    "
     ++ reportDir ++ "/" ++ top ++ ".mapped.power.rpt\nreport_clock_gating -nosplit > \\\n    "
     ++ reportDir ++ "/" ++ top ++ ".mapped.clock_gating.rpt\n")
  (st, .success)

/-- `DC.generate_dft_reports` (source lines 266-274): two formatted blocks. -/
def generate_dft_reports (resultDir top : String) (st : DCState) : DCState × StepOut :=
  let st := append st
    ("\nwrite_test_protocol -output " ++ resultDir ++ "/" ++ top ++ "_test_protocol.spf\n")
  let st := append st
    ("\nwrite_scan_def -output " ++ resultDir ++ "/" ++ top ++ "_report_dft.scandef\n")
  (st, .success)

/-- `DC.write_outputs` (source lines 254-264): appends the
netlist/ddc/sdc write block, then sets `ran_write_outputs` to `True`. -/
def write_outputs (resultDir top : String) (st : DCState) : DCState × StepOut :=
  let st := append st
    ("\nwrite -format verilog -hierarchy -output \\\n    "
     ++ resultDir ++ "/" ++ top ++ ".mapped.v\nwrite -format ddc -hierarchy -output \\\n    "
     ++ resultDir ++ "/" ++ top ++ ".mapped.ddc\nwrite_sdc -nosplit \\\n    "
     ++ resultDir ++ "/" ++ top ++ ".mapped.sdc\n")
  ({ st with ran_write_outputs_attr := some true }, .success)

/-- `DC.write_regs` (source lines 276-282). `isNonleafHier` is
`self.hierarchical_mode.is_nonleaf_hierarchical()`; `childTcl` and
`regsTcl` are the fragments returned by the framework methods
`child_modules_tcl()` and `write_regs_tcl()` (not in `src/`). -/
def write_regs (isNonleafHier : Bool) (childTcl regsTcl : String)
    (st : DCState) : DCState × StepOut :=
  let st := if isNonleafHier then append st childTcl else st
  let st := append st regsTcl
  ({ st with ran_write_regs_attr := some true }, .success)

/-- The five commands `insert_dft` appends before touching `clocks[0]`
(source lines 287-291). -/
def dftPreClockCmds : List String :=
  ["set compile_timing_high_effort true",
   "set compile_delete_unloaded_sequential_cells true",
   "set_scan_configuration -style multiplexed_flip_flop",
   "compile -scan  -gate_clock -area_effor medium -map_effort medium",
   "set_scan_configuration -chain_count 1  -create_test_clocks_by_system_clock_domain true"]

/-- The scan-clock DFT-signal block for clock `c` (source lines 292-294). -/
def dftClockCmd (c : String) : String :=
  "\nset_dft_signal -view existing_dft -type ScanClock -port " ++ c
    ++ "  -timing [list 45 95] -active_state 1 -connect_to " ++ c ++ "\n"

/-- The three scan-port creations appended after the clock command and
before touching `resets[0]` (source lines 295-297). -/
def dftPortCmds : List String :=
  ["create_port test_si -direction in",
   "create_port test_se -direction in",
   "create_port test_so -direction out"]

/-- The reset DFT-signal block for reset `r` (source lines 298-300). -/
def dftResetCmd (r : String) : String :=
  "\nset_dft_signal -view spec -type Reset -port " ++ r ++ " -active_state 1\n"

/-- The remaining commands appended after the reset block
(source lines 301-310). -/
def dftTailCmds : List String :=
  ["set_dft_signal -view spec -type ScanDataIn -port test_si ",
   "set_dft_signal -view spec -type ScanDataOut -port test_so",
   "set_dft_signal -view spec -type ScanEnable -port test_se -active_state 1",
   "create_test_protocol",
   "dft_drc -verbose",
   "preview_dft",
   "insert_dft",
   "check_scan",
   "dft_drc",
   "check_design"]

/-- `DC.insert_dft` (source lines 284-312). `clocks` and `resets` are the
port names from `get_clock_ports` / `get_reset_ports`. `clocks[0]` on an
empty list raises `IndexError` after the first five appends; `resets[0]`
on an empty list raises after nine appends. -/
def insert_dft (clocks resets : List String) (st : DCState) : DCState × StepOut :=
  let st := appendCmds st dftPreClockCmds
  match clocks with
  | [] => (st, .raised .indexError)
  | c :: _ =>
    let st := appendCmds st (dftClockCmd c :: dftPortCmds)
    match resets with
    | [] => (st, .raised .indexError)
    | r :: _ =>
      let st := appendCmds st (dftResetCmd r :: dftTailCmds)
      (st, .success)

/-- Modelled from the spec: the fail-fast step runner
(`make_steps_from_methods` and its driver are hammer-framework code not in
`src/`). Per the spec (3 Step, 4.4): steps execute strictly in declared
order, a failing step aborts the remainder of the pipeline, and an uncaught
exception likewise aborts. -/
def runSteps : List (DCState → DCState × StepOut) → DCState → DCState × StepOut
  | [], st => (st, .success)
  | f :: rest, st =>
    match f st with
    | (st', .success) => runSteps rest st'
    | (st', r) => (st', r)

/-- The pipeline steps declared before `write_outputs` in `DC.steps`
(source lines 105-116): `init_environment`, `elaborate_design`,
`apply_constraints`, `insert_dft`, `optimize_design`, `generate_reports`,
`generate_dft_reports`, each closed over its external inputs. -/
def prePipeline (maxThreads : Int) (resultDir reportDir top : String)
    (timingDbs verilog clocks resets : List String) (sdcClockConstraints : String)
    (noUngroup retimedModules retimingArgs compileArgs : List String)
    (fs : FS) : List (DCState → DCState × StepOut) :=
  [init_environment maxThreads resultDir top timingDbs fs,
   elaborate_design verilog top fs,
   apply_constraints clocks sdcClockConstraints noUngroup retimedModules retimingArgs,
   insert_dft clocks resets,
   optimize_design compileArgs,
   generate_reports reportDir top,
   generate_dft_reports resultDir top]

/-- The two completion flags of a state, as a pair. -/
def flagsPair (st : DCState) : Bool × Bool :=
  (ran_write_regs st, ran_write_outputs st)

end DC

open DC

/-- Appending one command extends the buffer by that command. -/
theorem output_append (st : DCState) (cmd : String) :
    output (append st cmd) = output st ++ [cmd] := rfl

/-- Appending a command leaves the completion flags unchanged. -/
theorem flagsPair_append (st : DCState) (cmd : String) :
    flagsPair (append st cmd) = flagsPair st := rfl

/-- Appending a command emits no log message. -/
theorem logs_append (st : DCState) (cmd : String) :
    (append st cmd).logs = st.logs := rfl

/-- Sequential appends extend the buffer by the command list, in order. -/
theorem output_appendCmds (st : DCState) (cmds : List String) :
    output (appendCmds st cmds) = output st ++ cmds := by
  induction cmds generalizing st with
  | nil => simp [appendCmds]
  | cons c cs ih =>
    simp [appendCmds] at ih ⊢
    rw [ih]
    simp [output_append]

/-- Sequential appends leave the completion flags unchanged. -/
theorem flagsPair_appendCmds (st : DCState) (cmds : List String) :
    flagsPair (appendCmds st cmds) = flagsPair st := by
  induction cmds generalizing st with
  | nil => rfl
  | cons c cs ih => simpa [appendCmds] using ih (append st c)

/-- Sequential appends emit no log message. -/
theorem logs_appendCmds (st : DCState) (cmds : List String) :
    (appendCmds st cmds).logs = st.logs := by
  induction cmds generalizing st with
  | nil => rfl
  | cons c cs ih => simpa [appendCmds] using ih (append st c)

/-- Sequential appends leave the raw regs-flag attribute untouched. -/
theorem appendCmds_rwr_attr (st : DCState) (cmds : List String) :
    (appendCmds st cmds).ran_write_regs_attr = st.ran_write_regs_attr := by
  induction cmds generalizing st with
  | nil => rfl
  | cons c cs ih => simpa [appendCmds] using ih (append st c)

/-- Sequential appends leave the raw outputs-flag attribute untouched. -/
theorem appendCmds_rwo_attr (st : DCState) (cmds : List String) :
    (appendCmds st cmds).ran_write_outputs_attr = st.ran_write_outputs_attr := by
  induction cmds generalizing st with
  | nil => rfl
  | cons c cs ih => simpa [appendCmds] using ih (append st c)

/-- Splitting a command list splits the append sequence. -/
theorem appendCmds_append (st : DCState) (a b : List String) :
    appendCmds st (a ++ b) = appendCmds (appendCmds st a) b := by
  simp [appendCmds]

/-- Prepending the empty string is the identity on strings. -/
theorem string_empty_append (s : String) : "" ++ s = s := by
  cases s with
  | mk l => rfl

/-- The second half of the validator leaves the completion flags unchanged. -/
theorem fill_after_regs_flags (c : Cfg) (fs : FS) (st : DCState) :
    flagsPair (fill_after_regs c fs st).1 = flagsPair st := by
  simp only [fill_after_regs]
  split_ifs <;> rfl

/-- The validator leaves the completion flags unchanged. -/
theorem fill_outputs_flags (c : Cfg) (fs : FS) (prp : Bool) (st : DCState) :
    flagsPair (fill_outputs c fs prp st).1 = flagsPair st := by
  simp only [fill_outputs]
  split_ifs <;> simp [fill_after_regs_flags] <;> rfl

/-- The validator leaves `ran_write_regs` unchanged. -/
theorem fill_outputs_rwr (c : Cfg) (fs : FS) (prp : Bool) (st : DCState) :
    ran_write_regs (fill_outputs c fs prp st).1 = ran_write_regs st :=
  congrArg Prod.fst (fill_outputs_flags c fs prp st)

/-- The verdict of the second half of the validator depends only on whether
the mapped netlist exists. -/
theorem fill_after_regs_snd (c : Cfg) (fs : FS) (st : DCState) :
    (fill_after_regs c fs st).2 =
      if isfile fs (mapped_v_path c) then .success
      else .raised (.valueError ("Output mapped verilog " ++ mapped_v_path c ++ " not found")) := by
  simp only [fill_after_regs]
  split_ifs <;> simp_all

/-- The second half of the validator passes `output_seq_cells` through. -/
theorem fill_after_regs_seq (c : Cfg) (fs : FS) (st : DCState) :
    (fill_after_regs c fs st).1.output_seq_cells = st.output_seq_cells := by
  simp only [fill_after_regs]
  split_ifs <;> rfl

/-- The second half of the validator passes `output_all_regs` through. -/
theorem fill_after_regs_regs (c : Cfg) (fs : FS) (st : DCState) :
    (fill_after_regs c fs st).1.output_all_regs = st.output_all_regs := by
  simp only [fill_after_regs]
  split_ifs <;> rfl

/-- `output_files` after the second half of the validator. -/
theorem fill_after_regs_files (c : Cfg) (fs : FS) (st : DCState) :
    (fill_after_regs c fs st).1.output_files =
      if isfile fs (mapped_v_path c) then some [mapped_v_path c] else st.output_files := by
  simp only [fill_after_regs]
  split_ifs <;> simp_all

/-- `output_sdc` after the second half of the validator. -/
theorem fill_after_regs_sdc (c : Cfg) (fs : FS) (st : DCState) :
    (fill_after_regs c fs st).1.output_sdc =
      if isfile fs (mapped_v_path c) then some (post_synth_sdc c) else st.output_sdc := by
  simp only [fill_after_regs]
  split_ifs <;> simp_all

/-- The validator's verdict as a function of the flags and the filesystem. -/
theorem fill_outputs_snd (c : Cfg) (fs : FS) (prp : Bool) (st : DCState) :
    (fill_outputs c fs prp st).2 =
      if ran_write_regs st && !(isfile fs (all_cells_path c)) then
        .raised (.valueError ("Output find_regs_cells.json " ++ all_cells_path c ++ " not found"))
      else if ran_write_regs st && !(isfile fs (all_regs_path c)) then
        .raised (.valueError ("Output find_regs_paths.json " ++ all_regs_path c ++ " not found"))
      else if isfile fs (mapped_v_path c) then .success
      else .raised (.valueError ("Output mapped verilog " ++ mapped_v_path c ++ " not found")) := by
  simp only [fill_outputs, ran_write_regs]
  split_ifs <;> simp_all [fill_after_regs_snd, ran_write_regs]

/-- The validator always records the sequential-cell metadata path. -/
theorem fill_outputs_seq (c : Cfg) (fs : FS) (prp : Bool) (st : DCState) :
    (fill_outputs c fs prp st).1.output_seq_cells = some (all_cells_path c) := by
  simp only [fill_outputs]
  split_ifs <;> simp_all [fill_after_regs_seq]

/-- The validator always records the register metadata path. -/
theorem fill_outputs_regsf (c : Cfg) (fs : FS) (prp : Bool) (st : DCState) :
    (fill_outputs c fs prp st).1.output_all_regs = some (all_regs_path c) := by
  simp only [fill_outputs]
  split_ifs <;> simp_all [fill_after_regs_regs]

/-- `output_files` after the validator, as a function of its inputs. -/
theorem fill_outputs_files (c : Cfg) (fs : FS) (prp : Bool) (st : DCState) :
    (fill_outputs c fs prp st).1.output_files =
      if ((!ran_write_regs st) || (isfile fs (all_cells_path c) && isfile fs (all_regs_path c)))
          && isfile fs (mapped_v_path c)
        then some [mapped_v_path c] else st.output_files := by
  simp only [fill_outputs, ran_write_regs]
  split_ifs <;> simp_all [fill_after_regs_files, ran_write_regs]

/-- `output_sdc` after the validator, as a function of its inputs. -/
theorem fill_outputs_sdcf (c : Cfg) (fs : FS) (prp : Bool) (st : DCState) :
    (fill_outputs c fs prp st).1.output_sdc =
      if ((!ran_write_regs st) || (isfile fs (all_cells_path c) && isfile fs (all_regs_path c)))
          && isfile fs (mapped_v_path c)
        then some (post_synth_sdc c) else st.output_sdc := by
  simp only [fill_outputs, ran_write_regs]
  split_ifs <;> simp_all [fill_after_regs_sdc, ran_write_regs]

/-- A pipeline of flag-preserving steps preserves the completion flags,
whether it runs to completion or aborts early. -/
theorem runSteps_flagsPair (l : List (DCState → DCState × StepOut))
    (h : ∀ f ∈ l, ∀ s, flagsPair (f s).1 = flagsPair s) (st : DCState) :
    flagsPair (runSteps l st).1 = flagsPair st := by
  induction l generalizing st with
  | nil => rfl
  | cons f rest ih =>
    have h1 : flagsPair (f st).1 = flagsPair st := h f (List.mem_cons_self f rest) st
    have h2 : ∀ g ∈ rest, ∀ s, flagsPair (g s).1 = flagsPair s :=
      fun g hg => h g (List.mem_cons_of_mem f hg)
    simp only [runSteps]
    split
    next st' heq =>
      rw [ih h2 st']
      rw [heq] at h1
      exact h1
    next st' r _ heq =>
      rw [heq] at h1
      exact h1

/-- `init_environment` never touches the completion flags. -/
theorem init_environment_flags (mt : Int) (rd top : String) (dbs : List String)
    (fs : FS) (st : DCState) :
    flagsPair (init_environment mt rd top dbs fs st).1 = flagsPair st := by
  simp only [init_environment]
  split <;> simp [flagsPair, ran_write_regs, ran_write_outputs,
    appendCmds_rwr_attr, appendCmds_rwo_attr]

/-- `elaborate_design` never touches the completion flags. -/
theorem elaborate_design_flags (verilog : List String) (top : String)
    (fs : FS) (st : DCState) :
    flagsPair (elaborate_design verilog top fs st).1 = flagsPair st := by
  simp only [elaborate_design]
  split <;> simp [flagsPair, ran_write_regs, ran_write_outputs,
    appendCmds_rwr_attr, appendCmds_rwo_attr]

/-- `apply_constraints` never touches the completion flags. -/
theorem apply_constraints_flags (clocks : List String) (sdcClockConstraints : String)
    (noUngroup retimedModules retimingArgs : List String) (st : DCState) :
    flagsPair (apply_constraints clocks sdcClockConstraints noUngroup retimedModules
        retimingArgs st).1 = flagsPair st := by
  simp [apply_constraints, flagsPair_append, flagsPair_appendCmds]

/-- `insert_dft` never touches the completion flags, on all three paths. -/
theorem insert_dft_flags (clocks resets : List String) (st : DCState) :
    flagsPair (insert_dft clocks resets st).1 = flagsPair st := by
  cases clocks <;> cases resets <;>
    simp [insert_dft, flagsPair_appendCmds]

/-- `optimize_design` never touches the completion flags. -/
theorem optimize_design_flags (compileArgs : List String) (st : DCState) :
    flagsPair (optimize_design compileArgs st).1 = flagsPair st := by
  simp [optimize_design, flagsPair_appendCmds]

/-- `generate_reports` never touches the completion flags. -/
theorem generate_reports_flags (reportDir top : String) (st : DCState) :
    flagsPair (generate_reports reportDir top st).1 = flagsPair st := by
  simp [generate_reports, flagsPair_append]

/-- `generate_dft_reports` never touches the completion flags. -/
theorem generate_dft_reports_flags (resultDir top : String) (st : DCState) :
    flagsPair (generate_dft_reports resultDir top st).1 = flagsPair st := by
  simp [generate_dft_reports, flagsPair_append]

/-- C1 counterexample: with `ran_write_outputs = false` (fresh state) and an
empty filesystem, the absence of the mapped-Verilog netlist makes
`fill_outputs` raise an error naming its path, so the claim that all three
write-outputs-gated artifacts are skipped when the flag is false is wrong. -/
theorem c1_ungated_mapped_verilog_counterexample :
    ran_write_outputs initState = false ∧
    (fill_outputs ⟨"/run", "/run/results", "core", "/run/results/core.mapped.sdc"⟩
        [] true initState).2
      = .raised (.valueError "Output mapped verilog /run/results/core.mapped.v not found") := by
  exact ⟨rfl, by decide⟩

/-- C1 (amended): with both completion flags false, `fill_outputs` is
insensitive to the presence of the mapped SDC and SDF files — it succeeds
whenever the mapped-Verilog netlist exists, logging only that `write_regs`
and `write_outputs` did not run — but the mapped-Verilog netlist itself is
checked unconditionally: its absence raises a `ValueError` naming its path
even though `ran_write_outputs` is false. -/
theorem c1_output_gating_amended (c : Cfg) (fs : FS) (prp : Bool) (st : DCState)
    (hr : ran_write_regs st = false) (ho : ran_write_outputs st = false) :
    (isfile fs (mapped_v_path c) = true →
      (fill_outputs c fs prp st).2 = .success ∧
      (fill_outputs c fs prp st).1.logs
        = st.logs ++ [.info "Did not run write_regs", .info "Did not run write_outputs"]) ∧
    (isfile fs (mapped_v_path c) = false →
      (fill_outputs c fs prp st).2
        = .raised (.valueError ("Output mapped verilog " ++ mapped_v_path c ++ " not found"))) := by
  simp only [ran_write_regs] at hr
  simp only [ran_write_outputs] at ho
  constructor
  · intro hm
    simp [fill_outputs, fill_after_regs, ran_write_regs, ran_write_outputs, hm, hr, ho]
  · intro hm
    simp [fill_outputs, fill_after_regs, ran_write_regs, ran_write_outputs, hm, hr, ho]

/-- C1 amended witness: concrete run with only the mapped netlist on disk
(no SDC, no SDF) and both flags false: validation succeeds with the two
not-run info messages. -/
theorem c1_output_gating_amended_witness :
    (fill_outputs ⟨"/run", "/run/results", "core", "/run/results/core.mapped.sdc"⟩
        ["/run/results/core.mapped.v"] true initState).2 = .success ∧
    (fill_outputs ⟨"/run", "/run/results", "core", "/run/results/core.mapped.sdc"⟩
        ["/run/results/core.mapped.v"] true initState).1.logs
      = initState.logs ++ [.info "Did not run write_regs", .info "Did not run write_outputs"] :=
  (c1_output_gating_amended ⟨"/run", "/run/results", "core", "/run/results/core.mapped.sdc"⟩
    ["/run/results/core.mapped.v"] true initState rfl rfl).1 (by decide)

/-- C2 counterexample: a normal (successful) engine invocation with
pre-invocation logging flags `(false, false)` ends with the flags not equal
to their pre-invocation values — `run_design_compiler` sets them
unconditionally to `true`, so they are not restored on every exit path. -/
theorem c2_logging_restore_counterexample :
    (run_design_compiler "x" "/s" "/r" (.lines []) initState ⟨false, false⟩).flags
      ≠ ⟨false, false⟩ := by decide

/-- C2 (amended): `run_design_compiler` sets both global logging flags to
`false` on entry and unconditionally to `true` after a successful engine
invocation, regardless of their pre-invocation values; when the invocation
fails (non-zero engine exit, a fatal `EngineExecutionError`), the two
restoring assignments are never reached and the flags are left `false`. -/
theorem c2_logging_flags_behavior (dcBin sd rd : String) (st : DCState) (g : LogFlags)
    (ls : List String) :
    (run_design_compiler dcBin sd rd (.lines ls) st g).flags = ⟨true, true⟩ ∧
    (run_design_compiler dcBin sd rd .nonzeroExit st g).flags = ⟨false, false⟩ ∧
    (run_design_compiler dcBin sd rd .nonzeroExit st g).outcome
      = .raised .engineExecutionError :=
  ⟨rfl, rfl, rfl⟩

/-- C3: register-metadata artifact gating in `fill_outputs`. If
`ran_write_regs` is false the register files are never consulted — the
verdict depends only on the mapped netlist and the not-run info message is
logged. If `ran_write_regs` is true and `find_regs_cells.json` is missing,
validation fails fatally with an error naming that path; if it exists but
`find_regs_paths.json` is missing, validation fails fatally with an error
naming that path. -/
theorem c3_register_artifact_gating (c : Cfg) (fs : FS) (prp : Bool) (st : DCState) :
    (ran_write_regs st = false →
      ((isfile fs (mapped_v_path c) = true → (fill_outputs c fs prp st).2 = .success) ∧
       (isfile fs (mapped_v_path c) = false →
         (fill_outputs c fs prp st).2
           = .raised (.valueError ("Output mapped verilog " ++ mapped_v_path c ++ " not found"))) ∧
       Log.info "Did not run write_regs" ∈ (fill_outputs c fs prp st).1.logs)) ∧
    (ran_write_regs st = true → isfile fs (all_cells_path c) = false →
      (fill_outputs c fs prp st).2
        = .raised (.valueError ("Output find_regs_cells.json " ++ all_cells_path c ++ " not found"))) ∧
    (ran_write_regs st = true → isfile fs (all_cells_path c) = true →
        isfile fs (all_regs_path c) = false →
      (fill_outputs c fs prp st).2
        = .raised (.valueError ("Output find_regs_paths.json " ++ all_regs_path c ++ " not found"))) := by
  simp only [ran_write_regs]
  refine ⟨fun hr => ?_, fun hr hc => ?_, fun hr hc hp => ?_⟩
  · refine ⟨fun hm => ?_, fun hm => ?_, ?_⟩
    · simp [fill_outputs, fill_after_regs, ran_write_regs, ran_write_outputs, hm, hr]
      split_ifs <;> rfl
    · simp [fill_outputs, fill_after_regs, ran_write_regs, hm, hr]
    · simp only [fill_outputs, ran_write_regs]
      simp only [hr]
      simp [fill_after_regs]
      split_ifs <;> simp
  · simp [fill_outputs, ran_write_regs, hr, hc]
  · simp [fill_outputs, ran_write_regs, hr, hc, hp]

/-- C3 witness: with `ran_write_regs` set and an empty filesystem, the
validator raises the error naming the `find_regs_cells.json` path. -/
theorem c3_register_artifact_gating_witness :
    (fill_outputs ⟨"/run", "/run/results", "core", "/run/results/core.mapped.sdc"⟩
        [] true { initState with ran_write_regs_attr := some true }).2
      = .raised (.valueError ("Output find_regs_cells.json "
          ++ all_cells_path ⟨"/run", "/run/results", "core", "/run/results/core.mapped.sdc"⟩
          ++ " not found")) :=
  (c3_register_artifact_gating ⟨"/run", "/run/results", "core", "/run/results/core.mapped.sdc"⟩
    [] true { initState with ran_write_regs_attr := some true }).2.1 rfl (by decide)

/-- C4: the script text written to `dc.tcl` (the two sequential writes,
`'\n'.join(output)` then `'\nexit'`) equals the spec's render — the buffered
lines joined by newline followed by exactly one terminating exit
directive — for every buffer including the empty one; in the concrete
scenario, appending `set A 1` then `analyze core` renders
`set A 1\nanalyze core\nexit`. -/
theorem c4_script_render (dcBin sd rd : String) (exec : ExecOutcome)
    (st : DCState) (g : LogFlags) :
    (run_design_compiler dcBin sd rd exec st g).script = render (output st) ∧
    (run_design_compiler dcBin sd rd exec
        (append (append initState "set A 1") "analyze core") g).script
      = "set A 1\nanalyze core\nexit" := by
  constructor
  · cases exec <;> simp [run_design_compiler, render, string_empty_append]
  · cases exec <;> rfl

/-- C5: every engine invocation uses exactly the argument list
`<engine-binary> -64bit -f <script-path>` (the engine binary being the
basename of the configured `synthesis.dc.dc_bin`, the script path
`<script-dir>/dc.tcl`), runs in the run directory, and `env_vars` maps
`PATH` to the directory of the configured engine binary, a colon, and the
inherited `PATH`. -/
theorem c5_engine_invocation (dcBin sd rd inheritedPATH : String) (exec : ExecOutcome)
    (st : DCState) (g : LogFlags) (superEnv : Env) :
    (run_design_compiler dcBin sd rd exec st g).inv.args
      = [ospathBasename dcBin, "-64bit", "-f", ospathJoin sd "dc.tcl"] ∧
    (run_design_compiler dcBin sd rd exec st g).inv.cwd = rd ∧
    env_vars dcBin inheritedPATH superEnv "PATH"
      = some (ospathDirname dcBin ++ ":" ++ inheritedPATH) := by
  refine ⟨?_, ?_, ?_⟩
  · cases exec <;> rfl
  · cases exec <;> rfl
  · simp [env_vars]

/-- C6: `insert_dft` with an empty clock list or an empty reset list fails —
the run aborts with the raised index error from taking the first element of
the empty port list (the spec's `MissingPortError` situation), and no
default port is substituted (the commands appended before the failing access
are exactly the listed scan-configuration ones, none naming a port for the
missing role); with at least one clock and one reset it appends the full
scan-configuration and DFT-signal command sequence, using the first clock
and first reset, and succeeds. -/
theorem c6_insert_dft_port_requirements (st : DCState) (c r : String)
    (cs rs resets : List String) :
    insert_dft [] resets st = (appendCmds st dftPreClockCmds, .raised .indexError) ∧
    insert_dft (c :: cs) [] st
      = (appendCmds st (dftPreClockCmds ++ dftClockCmd c :: dftPortCmds),
         .raised .indexError) ∧
    insert_dft (c :: cs) (r :: rs) st
      = (appendCmds st (dftPreClockCmds ++ (dftClockCmd c :: dftPortCmds)
            ++ (dftResetCmd r :: dftTailCmds)),
         .success) := by
  refine ⟨rfl, ?_, ?_⟩
  · simp only [insert_dft]
    rw [appendCmds_append]
  · simp only [insert_dft]
    rw [appendCmds_append, appendCmds_append]

/-- C7: if any required timing database is missing from the filesystem,
`init_environment` fails, logging an error that names a specific missing
database path (the first missing one), and the fail-fast runner executes
none of the remaining pipeline steps: the run's result is exactly the
failing step's result, for every possible remainder. -/
theorem c7_missing_timing_db_aborts (mt : Int) (rd top : String) (dbs : List String)
    (fs : FS) (st : DCState) (rest : List (DCState → DCState × StepOut)) (db : String)
    (hmem : db ∈ dbs) (hmiss : isfile fs db = false) :
    ∃ dbm, dbm ∈ dbs ∧ isfile fs dbm = false ∧
      (init_environment mt rd top dbs fs st).2 = .failure ∧
      (init_environment mt rd top dbs fs st).1.logs
        = st.logs ++ [.error ("Cannot find " ++ dbm)] ∧
      runSteps (init_environment mt rd top dbs fs :: rest) st
        = ((init_environment mt rd top dbs fs st).1, .failure) := by
  have hsome : (dbs.find? (fun d => !(isfile fs d))).isSome :=
    List.find?_isSome.mpr ⟨db, hmem, by simp [hmiss]⟩
  obtain ⟨dbm, hfind⟩ := Option.isSome_iff_exists.mp hsome
  have hpm := List.find?_some hfind
  refine ⟨dbm, List.mem_of_find?_eq_some hfind, ?_, ?_, ?_, ?_⟩
  · simpa using hpm
  · simp [init_environment, hfind]
  · simp [init_environment, hfind, logs_appendCmds]
  · simp [runSteps, init_environment, hfind]

/-- C7 witness: a single configured timing database that does not exist on
an empty filesystem makes `init_environment` fail, naming it, and the
pipeline runs no further step. -/
theorem c7_missing_timing_db_aborts_witness :
    ∃ dbm, dbm ∈ ["/libs/a.db"] ∧ isfile ([] : FS) dbm = false ∧
      (init_environment 4 "/r" "core" ["/libs/a.db"] [] initState).2 = .failure ∧
      (init_environment 4 "/r" "core" ["/libs/a.db"] [] initState).1.logs
        = initState.logs ++ [.error ("Cannot find " ++ dbm)] ∧
      runSteps (init_environment 4 "/r" "core" ["/libs/a.db"] [] :: []) initState
        = ((init_environment 4 "/r" "core" ["/libs/a.db"] [] initState).1, .failure) :=
  c7_missing_timing_db_aborts 4 "/r" "core" ["/libs/a.db"] [] initState [] "/libs/a.db"
    (by simp) rfl

/-- C8: `write_regs` appends the child-module enumeration fragment exactly
when the design is non-leaf hierarchical, places it before the
register-dump fragment, sets `ran_write_regs` to true, and succeeds. -/
theorem c8_write_regs_fragments (isNonleafHier : Bool) (childTcl regsTcl : String)
    (st : DCState) :
    write_regs isNonleafHier childTcl regsTcl st
      = ({ st with
            output_attr := some (output st ++ (if isNonleafHier then [childTcl] else []) ++ [regsTcl]),
            ran_write_regs_attr := some true },
         .success) := by
  cases isNonleafHier <;> simp [write_regs, append, output]

/-- C9: the Output Validator / Exporter is idempotent: running
`fill_outputs` a second time, from the state the first run produced,
against the same filesystem, flags and register-path processing outcome,
yields the same verdict, and `export_config_outputs` produces the same
exported mapping after the second run as after the first. -/
theorem c9_validator_idempotent (superOut : Option (List String) → List (String × Option String))
    (c : Cfg) (fs : FS) (prp : Bool) (st : DCState) :
    (fill_outputs c fs prp (fill_outputs c fs prp st).1).2 = (fill_outputs c fs prp st).2 ∧
    export_config_outputs superOut c (fill_outputs c fs prp (fill_outputs c fs prp st).1).1
      = export_config_outputs superOut c (fill_outputs c fs prp st).1 := by
  have hrwr := fill_outputs_rwr c fs prp st
  have hf : (fill_outputs c fs prp (fill_outputs c fs prp st).1).1.output_files
      = (fill_outputs c fs prp st).1.output_files := by
    rw [fill_outputs_files, fill_outputs_files, hrwr]
    cases hRM : (((!ran_write_regs st) || (isfile fs (all_cells_path c) && isfile fs (all_regs_path c)))
        && isfile fs (mapped_v_path c)) <;> simp [hRM]
  have hs : (fill_outputs c fs prp (fill_outputs c fs prp st).1).1.output_sdc
      = (fill_outputs c fs prp st).1.output_sdc := by
    rw [fill_outputs_sdcf, fill_outputs_sdcf, hrwr]
    cases hRM : (((!ran_write_regs st) || (isfile fs (all_cells_path c) && isfile fs (all_regs_path c)))
        && isfile fs (mapped_v_path c)) <;> simp [hRM]
  refine ⟨?_, ?_⟩
  · rw [fill_outputs_snd, fill_outputs_snd, hrwr]
  · simp [export_config_outputs, hf, hs, fill_outputs_seq, fill_outputs_regsf]

/-- C10: completion-flag lifecycle. In the fresh state both flags read
false; `write_regs` sets `ran_write_regs` (leaving `ran_write_outputs`
alone) and `write_outputs` sets `ran_write_outputs` (leaving
`ran_write_regs` alone); the validator and every pipeline step that runs
before `write_outputs` preserve both flags, individually and composed under
the fail-fast runner — so a run that aborts anywhere before the
output-writing step leaves both flags false for the validator. -/
theorem c10_completion_flags_lifecycle (mt : Int) (resultDir reportDir top : String)
    (timingDbs verilog clocks resets : List String) (sdcClockConstraints : String)
    (noUngroup retimedModules retimingArgs compileArgs : List String) (fs : FS)
    (c : Cfg) (prp : Bool) (isNonleafHier : Bool) (childTcl regsTcl : String)
    (st : DCState) :
    (ran_write_regs initState = false ∧ ran_write_outputs initState = false) ∧
    (ran_write_regs (write_regs isNonleafHier childTcl regsTcl st).1 = true ∧
      ran_write_outputs (write_regs isNonleafHier childTcl regsTcl st).1
        = ran_write_outputs st) ∧
    (ran_write_outputs (write_outputs resultDir top st).1 = true ∧
      ran_write_regs (write_outputs resultDir top st).1 = ran_write_regs st) ∧
    (flagsPair (fill_outputs c fs prp st).1 = flagsPair st) ∧
    (flagsPair (runSteps (prePipeline mt resultDir reportDir top timingDbs verilog
        clocks resets sdcClockConstraints noUngroup retimedModules retimingArgs
        compileArgs fs) st).1 = flagsPair st) := by
  refine ⟨⟨rfl, rfl⟩, ?_, ?_, fill_outputs_flags c fs prp st, ?_⟩
  · cases isNonleafHier <;>
      simp [write_regs, ran_write_regs, ran_write_outputs, append]
  · simp [write_outputs, ran_write_regs, ran_write_outputs, append]
  · refine runSteps_flagsPair _ ?_ st
    intro f hf s
    simp only [prePipeline, List.mem_cons, List.mem_singleton] at hf
    rcases hf with rfl | rfl | rfl | rfl | rfl | rfl | rfl | h
    · exact init_environment_flags _ _ _ _ _ _
    · exact elaborate_design_flags _ _ _ _
    · exact apply_constraints_flags _ _ _ _ _ _
    · exact insert_dft_flags _ _ _
    · exact optimize_design_flags _ _
    · exact generate_reports_flags _ _ _
    · exact generate_dft_reports_flags _ _ _
    · exact absurd h (by simp)
